import Mathlib

/-!
Verification development for the JobFormAutoFiller repository.

The Python source (`resume_parser.py`, `ai_expansion.py`,
`browser_automation/browser_automation.py`) is shallowly embedded below:
pure functions become Lean functions on `String` / `List`, Python `dict`s
with optional keys become structures with `Option String` fields, and the
handful of regular expressions used by the parser are compiled to a small
regex AST with leftmost / greedy-with-backtracking search semantics
matching Python's `re.search`.
-/

namespace JobForm

/-! ## Basic Python string operations -/

/-- Python `needle in hay` substring containment (over characters). -/
def listContains (hay needle : List Char) : Bool :=
  (List.range (hay.length + 1)).any (fun i => needle.isPrefixOf (hay.drop i))

/-- Python `needle in hay` for strings. -/
def strContains (hay needle : String) : Bool :=
  listContains hay.toList needle.toList

/-- Python `str.strip()` on a character list. -/
def stripChars (l : List Char) : List Char :=
  ((l.dropWhile Char.isWhitespace).reverse.dropWhile Char.isWhitespace).reverse

/-- Python `str.strip()`. -/
def pyStrip (s : String) : String :=
  String.mk (stripChars s.toList)

/-- Python `str.lower()` (character-wise ASCII lowering). -/
def pyLower (s : String) : String :=
  String.mk (s.toList.map Char.toLower)

/-- Auxiliary for `tokenCount`: counts maximal non-whitespace runs,
`inTok` records whether the previous character was inside a token. -/
def tokenCountAux : List Char → Bool → Nat
  | [], _ => 0
  | c :: cs, inTok =>
    if c.isWhitespace then tokenCountAux cs false
    else (if inTok then 0 else 1) + tokenCountAux cs true

/-- Python `len(s.split())`: number of whitespace-separated tokens. -/
def tokenCount (s : String) : Nat :=
  tokenCountAux s.toList false

/-- Split a character list on a separator character, keeping empty
pieces (Python `s.split(sep)` for a one-character `sep`). -/
def splitOnChar (sep : Char) : List Char → List (List Char)
  | [] => [[]]
  | c :: cs =>
    if c = sep then [] :: splitOnChar sep cs
    else
      match splitOnChar sep cs with
      | g :: gs => (c :: g) :: gs
      | [] => [[c]]

/-- Python `text.split('\n')`. -/
def pySplitLines (s : String) : List String :=
  (splitOnChar '\n' s.toList).map String.mk

/-! ## Resume data model

`ResumeDocument` as built by `ResumeParser._parse_text_to_structured_data`:
Python dicts with optional string keys become structures of
`Option String`. -/

structure EducationEntry where
  degree : Option String
  institution : Option String
  year : Option String
deriving Repr, DecidableEq

structure ExperienceEntry where
  position : Option String
  company : Option String
  duration : Option String
deriving Repr, DecidableEq

structure ProjectEntry where
  name : Option String
  description : Option String
deriving Repr, DecidableEq

structure PersonalInfo where
  name : Option String
  email : Option String
  phone : Option String
  linkedin : Option String
  github : Option String
deriving Repr, DecidableEq

structure ResumeData where
  personal_info : PersonalInfo
  education : List EducationEntry
  work_experience : List ExperienceEntry
  skills : List String
  projects : List ProjectEntry
  raw_text : String
deriving Repr, DecidableEq

def emptyEducationEntry : EducationEntry := ⟨none, none, none⟩
def emptyExperienceEntry : ExperienceEntry := ⟨none, none, none⟩
def emptyProjectEntry : ProjectEntry := ⟨none, none⟩
def emptyPersonalInfo : PersonalInfo := ⟨none, none, none, none, none⟩

/-! ## AIExpansion.is_abstract_question -/

/-- The fixed keyword list of `AIExpansion.is_abstract_question`. -/
def abstract_keywords : List String :=
  ["why", "describe", "explain", "tell us", "what motivates", "your greatest",
   "how would you", "what interests you", "your goals", "your passion",
   "cover letter", "personal statement", "objective", "summary"]

/-- `AIExpansion.is_abstract_question(question, field_type)`. -/
def is_abstract_question (question : String) (field_type : String) : Bool :=
  let question_lower := pyLower question
  if field_type == "textarea" || question.length > 50 then true
  else abstract_keywords.any (fun keyword => strContains question_lower keyword)

/-! ## AIExpansion.get_direct_answer -/

/-- First element of a list of education entries (`education[0]`),
only consulted by the source after checking the list is non-empty. -/
def firstEdu (l : List EducationEntry) : EducationEntry :=
  l.headD emptyEducationEntry

def firstExp (l : List ExperienceEntry) : ExperienceEntry :=
  l.headD emptyExperienceEntry

/-- `AIExpansion.get_direct_answer(question, resume_data)`: the ordered
keyword → field chain; a branch whose Python `if` body contains a `return`
that is itself guarded (the education/experience branches) falls through
to the next branch when the guard fails, which is rendered here by
conjoining the guard into the branch condition. -/
def get_direct_answer (question : String) (resume_data : ResumeData) : Option String :=
  let question_lower := pyLower question
  let personal_info := resume_data.personal_info
  let education := resume_data.education
  let experience := resume_data.work_experience
  let skills := resume_data.skills
  if strContains question_lower "name" || strContains question_lower "full name" then
    some (personal_info.name.getD "")
  else if strContains question_lower "email" then
    some (personal_info.email.getD "")
  else if strContains question_lower "phone" then
    some (personal_info.phone.getD "")
  else if strContains question_lower "linkedin" then
    some (personal_info.linkedin.getD "")
  else if strContains question_lower "github" then
    some (personal_info.github.getD "")
  else if (strContains question_lower "university" || strContains question_lower "school")
      && !education.isEmpty then
    some ((firstEdu education).institution.getD "")
  else if strContains question_lower "degree" && !education.isEmpty then
    some ((firstEdu education).degree.getD "")
  else if (strContains question_lower "company" || strContains question_lower "employer")
      && !experience.isEmpty then
    some ((firstExp experience).company.getD "")
  else if (strContains question_lower "position" || strContains question_lower "title")
      && !experience.isEmpty then
    some ((firstExp experience).position.getD "")
  else if strContains question_lower "skill" then
    some (String.intercalate ", " (skills.take 5))
  else
    none

/-! ## A small regex engine

The parser uses a handful of `re.search` calls. Each pattern is compiled
to this AST; `reMatch` enumerates the possible (consumed, rest) splits in
Python's priority order (greedy repetition: longest first; alternation:
left first), and `reSearch` takes the leftmost position with a match,
reproducing `re.search` semantics for these star-height-≤-1 patterns. -/

/-- Python `\w` (ASCII fragment, all that the inputs here use). -/
def isWordChar (c : Char) : Bool :=
  c.isAlphanum || c = '_'

inductive RE where
  /-- a single character from a class -/
  | cls (f : Char → Bool)
  /-- greedy `X*` over a character class -/
  | starCls (f : Char → Bool)
  /-- `X{n}` over a character class -/
  | repCls (n : Nat) (f : Char → Bool)
  /-- `\b` -/
  | bound
  | seq (a b : RE)
  | alt (a b : RE)

/-- Wordness of the character left of the current position
(`none` = start of string, non-word). -/
def prevIsWord : Option Char → Bool
  | none => false
  | some c => isWordChar c

/-- `\b` holds between `prev` and the suffix `l`. -/
def atBoundary (prev : Option Char) (l : List Char) : Bool :=
  match l with
  | [] => prevIsWord prev
  | c :: _ => prevIsWord prev != isWordChar c

/-- The character immediately left of the position after consuming `m`. -/
def lastOr (prev : Option Char) (m : List Char) : Option Char :=
  match m.getLast? with
  | some c => some c
  | none => prev

/-- Exactly `n` characters of class `f`. -/
def takeExact (f : Char → Bool) : Nat → List Char → Option (List Char × List Char)
  | 0, l => some ([], l)
  | _ + 1, [] => none
  | n + 1, c :: cs =>
    if f c then (takeExact f n cs).map (fun p => (c :: p.1, p.2)) else none

/-- All splits of `l` a match of `r` can produce, in priority order. -/
def reMatch : RE → Option Char → List Char → List (List Char × List Char)
  | .cls _, _, [] => []
  | .cls f, _, c :: cs => if f c then [([c], cs)] else []
  | .starCls f, _, l =>
    let run := l.takeWhile f
    ((List.range (run.length + 1)).reverse).map (fun k => (l.take k, l.drop k))
  | .repCls n f, _, l =>
    match takeExact f n l with
    | some p => [p]
    | none => []
  | .bound, prev, l => if atBoundary prev l then [([], l)] else []
  | .seq a b, prev, l =>
    (reMatch a prev l).flatMap (fun p =>
      (reMatch b (lastOr prev p.1) p.2).map (fun q => (p.1 ++ q.1, q.2)))
  | .alt a b, prev, l => reMatch a prev l ++ reMatch b prev l

/-- Leftmost search from position `i`; returns (index, matched chars). -/
def reSearchAux (r : RE) : Option Char → Nat → List Char → Option (Nat × List Char)
  | prev, i, [] =>
    match (reMatch r prev []).head? with
    | some p => some (i, p.1)
    | none => none
  | prev, i, c :: cs =>
    match (reMatch r prev (c :: cs)).head? with
    | some p => some (i, p.1)
    | none => reSearchAux r (some c) (i + 1) cs

/-- Python `re.search(r, s)`: index and matched substring of the
leftmost match. -/
def reSearch (r : RE) (s : String) : Option (Nat × String) :=
  (reSearchAux r none 0 s.toList).map (fun p => (p.1, String.mk p.2))

/-- The matched substring (`match.group()`). -/
def reSearchStr (r : RE) (s : String) : Option String :=
  (reSearch r s).map (·.2)

/-- Literal character. -/
def REc (c : Char) : RE := .cls (fun d => d = c)

/-- Case-sensitive literal word. -/
def RElit (w : List Char) : RE :=
  match w with
  | [] => .starCls (fun _ => false)
  | [c] => REc c
  | c :: cs => .seq (REc c) (RElit cs)

/-- Case-insensitive literal word (for `re.IGNORECASE` patterns). -/
def REciLit (w : List Char) : RE :=
  match w with
  | [] => .starCls (fun _ => false)
  | [c] => .cls (fun d => d.toLower = c.toLower)
  | c :: cs => .seq (.cls (fun d => d.toLower = c.toLower)) (REciLit cs)

/-- Right-nested sequence of the given regexes. -/
def REseq (l : List RE) : RE :=
  match l with
  | [] => .starCls (fun _ => false)
  | [r] => r
  | r :: rs => .seq r (REseq rs)

/-- Greedy `X+` over a character class (`X X*`). -/
def REplus (f : Char → Bool) : RE := .seq (.cls f) (.starCls f)

/-- First-match alternation of a list of regexes. -/
def REaltList (l : List RE) : RE :=
  match l with
  | [] => .cls (fun _ => false)
  | [r] => r
  | r :: rs => .alt r (REaltList rs)

/-! ## The concrete patterns of `resume_parser.py` -/

/-- `\b[A-Za-z0-9._%+-]+@[A-Za-z0-9.-]+\.[A-Z|a-z]{2,}\b` (class pieces) -/
def emailLocalChar (c : Char) : Bool :=
  c.isAlpha || c.isDigit || c = '.' || c = '_' || c = '%' || c = '+' || c = '-'

def emailDomainChar (c : Char) : Bool :=
  c.isAlpha || c.isDigit || c = '.' || c = '-'

/-- `[A-Z|a-z]` — the literal `|` inside the class is part of the class. -/
def emailTldChar (c : Char) : Bool :=
  ('A' ≤ c && c ≤ 'Z') || c = '|' || ('a' ≤ c && c ≤ 'z')

def emailRE : RE :=
  REseq [.bound, REplus emailLocalChar, REc '@', REplus emailDomainChar,
         REc '.', .repCls 2 emailTldChar, .starCls emailTldChar, .bound]

/-- `\b\d{3}-\d{3}-\d{4}\b` -/
def phoneRE1 : RE :=
  REseq [.bound, .repCls 3 Char.isDigit, REc '-', .repCls 3 Char.isDigit,
         REc '-', .repCls 4 Char.isDigit, .bound]

/-- `\b\(\d{3}\)\s*\d{3}-\d{4}\b` -/
def phoneRE2 : RE :=
  REseq [.bound, REc '(', .repCls 3 Char.isDigit, REc ')',
         .starCls Char.isWhitespace, .repCls 3 Char.isDigit, REc '-',
         .repCls 4 Char.isDigit, .bound]

/-- `\b\d{10}\b` -/
def phoneRE3 : RE :=
  REseq [.bound, .repCls 10 Char.isDigit, .bound]

/-- `linkedin\.com/in/[\w-]+` with `re.IGNORECASE` -/
def handleChar (c : Char) : Bool := isWordChar c || c = '-'

def linkedinRE : RE :=
  .seq (REciLit "linkedin.com/in/".toList) (REplus handleChar)

/-- `github\.com/[\w-]+` with `re.IGNORECASE` -/
def githubRE : RE :=
  .seq (REciLit "github.com/".toList) (REplus handleChar)

/-- `(19|20)\d{2}` -/
def yearCore : RE :=
  .seq (.alt (RElit "19".toList) (RElit "20".toList)) (.repCls 2 Char.isDigit)

/-- `\b(19|20)\d{2}\b` -/
def yearRE : RE := REseq [.bound, yearCore, .bound]

/-- `\b(19|20)\d{2}\s*-\s*(19|20)\d{2}|\b(19|20)\d{2}\s*-\s*present`
with `re.IGNORECASE` -/
def durationRE : RE :=
  .alt (REseq [.bound, yearCore, .starCls Char.isWhitespace, REc '-',
               .starCls Char.isWhitespace, yearCore])
       (REseq [.bound, yearCore, .starCls Char.isWhitespace, REc '-',
               .starCls Char.isWhitespace, REciLit "present".toList])

/-- `(bachelor|master|phd|doctorate|bs|ms|ba|ma|mba|degree)` with `re.IGNORECASE` -/
def degreeRE1 : RE :=
  REaltList (["bachelor", "master", "phd", "doctorate", "bs", "ms", "ba",
              "ma", "mba", "degree"].map (fun w => REciLit w.toList))

/-- `(b\.s\.|m\.s\.|b\.a\.|m\.a\.|ph\.d\.)` with `re.IGNORECASE` -/
def degreeRE2 : RE :=
  REaltList (["b.s.", "m.s.", "b.a.", "m.a.", "ph.d."].map
    (fun w => REciLit w.toList))

/-! ## ResumeParser keyword sets -/

def education_keywords : List String :=
  ["education", "academic", "university", "college", "school", "degree",
   "bachelor", "master", "phd", "doctorate"]

def experience_keywords : List String :=
  ["experience", "work", "employment", "career", "professional", "job",
   "position", "role"]

def skills_keywords : List String :=
  ["skills", "technical", "technologies", "programming", "languages",
   "tools", "frameworks"]

def contact_keywords : List String :=
  ["contact", "phone", "email", "address", "linkedin", "github"]

/-- `any(keyword in line.lower() for keyword in keywords)` -/
def lineHasKeyword (line : String) (keywords : List String) : Bool :=
  keywords.any (fun keyword => strContains (pyLower line) keyword)

/-! ## ResumeParser._extract_personal_info -/

/-- The name-picking loop over (at most five) raw lines: strip, then the
length / token-count / digit test, then the `@` / `phone` test; first hit
wins, `break` ends the loop. -/
def nameLineLoop : List String → Option String
  | [] => none
  | line :: rest =>
    let l := pyStrip line
    if l.length > 2 ∧ tokenCount l ≤ 4 ∧ l.toList.any Char.isDigit = false then
      if strContains l "@" = false ∧ strContains (pyLower l) "phone" = false then
        some l
      else nameLineLoop rest
    else nameLineLoop rest

/-- `phone_patterns`, tried in order. -/
def phone_patterns : List RE := [phoneRE1, phoneRE2, phoneRE3]

/-- The phone loop: first pattern with a match anywhere wins. -/
def extractPhone (text : String) : Option String :=
  phone_patterns.findSome? (fun pattern => reSearchStr pattern text)

def _extract_personal_info (text : String) : PersonalInfo :=
  { name := nameLineLoop ((pySplitLines text).take 5)
    email := reSearchStr emailRE text
    phone := extractPhone text
    linkedin := reSearchStr linkedinRE text
    github := reSearchStr githubRE text }

/-! ## Section capture (shared loop shape of `_extract_education`,
`_extract_work_experience`, `_extract_skills`, `_extract_projects`) -/

/-- The scan loop: a line with a trigger keyword turns the flag on and is
consumed; with the flag on, a line with a stop keyword `break`s, a blank
line is skipped, any other line is captured. -/
def captureSection (triggers stops : List String) : List String → Bool → List String
  | [], _ => []
  | line :: rest, inSection =>
    let l := pyStrip line
    if lineHasKeyword l triggers then captureSection triggers stops rest true
    else if inSection then
      if lineHasKeyword l stops then []
      else if l ≠ "" then l :: captureSection triggers stops rest true
      else captureSection triggers stops rest true
    else captureSection triggers stops rest false

def education_lines (text : String) : List String :=
  captureSection education_keywords (experience_keywords ++ skills_keywords)
    (pySplitLines text) false

def experience_lines (text : String) : List String :=
  captureSection experience_keywords (education_keywords ++ skills_keywords)
    (pySplitLines text) false

def skills_lines (text : String) : List String :=
  captureSection skills_keywords (education_keywords ++ experience_keywords)
    (pySplitLines text) false

def project_lines (text : String) : List String :=
  captureSection ["project"]
    (education_keywords ++ experience_keywords ++ skills_keywords)
    (pySplitLines text) false

/-! ## ResumeParser._extract_education -/

/-- `degree_patterns` loop: does either degree regex match the line? -/
def degreeMatchLine (line : String) : Bool :=
  (reSearch degreeRE1 line).isSome || (reSearch degreeRE2 line).isSome

/-- One loop iteration of the education entry accumulation. -/
def updateEducation (entry : EducationEntry) (line : String) : EducationEntry :=
  let entry :=
    if degreeMatchLine line then { entry with degree := some line } else entry
  let entry :=
    if strContains (pyLower line) "university" || strContains (pyLower line) "college"
        || strContains (pyLower line) "institute" then
      { entry with institution := some line }
    else entry
  match reSearchStr yearRE line with
  | some y => { entry with year := some y }
  | none => entry

def _extract_education (text : String) : List EducationEntry :=
  let current_entry := (education_lines text).foldl updateEducation emptyEducationEntry
  if current_entry = emptyEducationEntry then [] else [current_entry]

/-! ## ResumeParser._extract_work_experience -/

def positionWords : List String :=
  ["engineer", "developer", "manager", "analyst", "specialist", "coordinator"]

/-- One loop iteration of the experience entry accumulation. -/
def updateExperience (entry : ExperienceEntry) (line : String) : ExperienceEntry :=
  let entry :=
    if positionWords.any (fun w => strContains (pyLower line) w) then
      { entry with position := some line }
    else entry
  let entry :=
    if strContains (pyLower line) "inc" || strContains (pyLower line) "corp"
        || strContains (pyLower line) "llc" || strContains (pyLower line) "ltd" then
      { entry with company := some line }
    else entry
  match reSearchStr durationRE line with
  | some d => { entry with duration := some d }
  | none => entry

def _extract_work_experience (text : String) : List ExperienceEntry :=
  let current_entry :=
    (experience_lines text).foldl updateExperience emptyExperienceEntry
  if current_entry = emptyExperienceEntry then [] else [current_entry]

/-! ## ResumeParser._extract_skills -/

/-- `re.split(r'[,;|•·\n]', line)`: delimiters of the class. -/
def skillDelims : List Char := [',', ';', '|', '•', '·', '\n']

/-- `re.split` on a single-character class, keeping empty pieces. -/
def splitOnDelims : List Char → List (List Char)
  | [] => [[]]
  | c :: cs =>
    if c ∈ skillDelims then [] :: splitOnDelims cs
    else
      match splitOnDelims cs with
      | g :: gs => (c :: g) :: gs
      | [] => [[c]]

def _extract_skills (text : String) : List String :=
  (skills_lines text).flatMap (fun line =>
    ((splitOnDelims line.toList).map (fun item => pyStrip (String.mk item))).filter
      (fun item => decide (item ≠ "") && decide (item.length > 1)))

/-! ## ResumeParser._extract_projects -/

/-- Python truthiness of `current_project.get('name')`. -/
def projTruthy : Option String → Bool
  | none => false
  | some s => !s.isEmpty

/-- The project pairing loop over the captured project lines. -/
def parseProjects : List String → ProjectEntry → List ProjectEntry
  | [], _ => []
  | line :: rest, current_project =>
    if !line.isEmpty && !projTruthy current_project.name then
      parseProjects rest { current_project with name := some line }
    else if !line.isEmpty then
      { current_project with description := some line }
        :: parseProjects rest emptyProjectEntry
    else
      parseProjects rest current_project

def _extract_projects (text : String) : List ProjectEntry :=
  parseProjects (project_lines text) emptyProjectEntry

/-! ## ResumeParser._parse_text_to_structured_data and parse_resume -/

def _parse_text_to_structured_data (text : String) : ResumeData :=
  { personal_info := _extract_personal_info text
    education := _extract_education text
    work_experience := _extract_work_experience text
    skills := _extract_skills text
    projects := _extract_projects text
    raw_text := text }

/-- Index of the last occurrence of `c` in `l` (Python `str.rfind`,
restricted to found-or-not plus index). -/
def rfindIdx (l : List Char) (c : Char) : Option Nat :=
  (l.reverse.indexOf? c).map (fun j => l.length - 1 - j)

/-- `os.path.splitext(p)[1]` (POSIX rules: the extension starts at the
last dot of the basename unless the basename up to that dot is all
dots). -/
def splitextExt (p : String) : String :=
  let l := p.toList
  let start := match rfindIdx l '/' with | some i => i + 1 | none => 0
  match rfindIdx l '.' with
  | some dotIdx =>
    if start ≤ dotIdx then
      if (List.range (dotIdx - start)).any (fun k => l.getD (start + k) ' ' != '.') then
        String.mk (l.drop dotIdx)
      else ""
    else ""
  | none => ""

/-- `ResumeParser.parse_resume`: the text-extraction collaborators
(`_extract_pdf_text`, `_extract_docx_text` — file I/O) are passed as
`Except`-valued inputs; the surrounding `try/except` logs and re-raises,
leaving the error unchanged. -/
def parse_resume (file_path : String) (pdf_text docx_text : Except String String) :
    Except String ResumeData :=
  let file_extension := pyLower (splitextExt file_path)
  if file_extension = ".pdf" then
    pdf_text.map _parse_text_to_structured_data
  else if file_extension = ".docx" ∨ file_extension = ".doc" then
    docx_text.map _parse_text_to_structured_data
  else
    Except.error ("Unsupported file format: " ++ file_extension)

/-! ## Helper lemmas -/

theorem listContains_iff (hay needle : List Char) :
    listContains hay needle = true ↔ needle <:+: hay := by
  unfold listContains
  rw [List.any_eq_true]
  constructor
  · rintro ⟨i, -, hp⟩
    exact ((List.isPrefixOf_iff_prefix.mp hp).isInfix).trans
      (List.drop_suffix i hay).isInfix
  · rintro ⟨s, t, rfl⟩
    refine ⟨s.length, List.mem_range.mpr ?_, List.isPrefixOf_iff_prefix.mpr ?_⟩
    · simp only [List.length_append]
      omega
    · rw [List.append_assoc, List.drop_left]
      exact List.prefix_append needle t

theorem strContains_iff_infix_chars (hay needle : String) :
    strContains hay needle = true ↔ needle.toList <:+: hay.toList :=
  listContains_iff _ _

/-- If a hay contains a needle, it contains every infix of that needle. -/
theorem strContains_of_contains_super {hay n₁ n₂ : String}
    (hsub : n₂.toList <:+: n₁.toList) (h : strContains hay n₁ = true) :
    strContains hay n₂ = true :=
  (strContains_iff_infix_chars hay n₂).mpr (hsub.trans ((strContains_iff_infix_chars hay n₁).mp h))

/-- Contrapositive form: no "name" in `q` means no "full name" in `q`. -/
theorem not_contains_full_name {q : String} (h : strContains q "name" = false) :
    strContains q "full name" = false := by
  by_contra hc
  rw [Bool.not_eq_false] at hc
  have := @strContains_of_contains_super q "full name" "name" (by decide) hc
  rw [h] at this
  exact Bool.false_ne_true this

/-! ## Claim theorems -/

/-- C1: direct answer resolution is first-match-wins in the fixed keyword
order; every question whose lowercased form contains "name" is answered by
the name branch (the value of `personal_info.name`, defaulting to `""`),
regardless of any later keyword such as "email" also occurring in the
question and regardless of the rest of the resume. -/
theorem claim_c1_name_branch_first (question : String) (resume : ResumeData)
    (h : strContains (pyLower question) "name" = true) :
    get_direct_answer question resume = some (resume.personal_info.name.getD "") := by
  unfold get_direct_answer
  simp [h]

/-- Witness for C1: "Full name and email" resolves to the name, with an
email present in the resume and in the question. -/
theorem claim_c1_name_branch_first_witness :
    get_direct_answer "Full name and email"
      { personal_info :=
          { name := some "John Smith", email := some "john@x.com",
            phone := none, linkedin := none, github := none },
        education := [], work_experience := [], skills := [], projects := [],
        raw_text := "" } = some "John Smith" :=
  claim_c1_name_branch_first "Full name and email" _ (by decide)

/-- C2: `is_abstract_question` returns `true` iff the field type is
"textarea", or the question is longer than 50 characters, or the
lowercased question contains one of the fixed abstract keywords; and it is
a pure function of its two arguments. -/
theorem claim_c2_is_abstract_question_iff :
    (∀ question field_type,
      is_abstract_question question field_type = true ↔
        (field_type = "textarea" ∨ question.length > 50 ∨
          ∃ kw ∈ abstract_keywords, strContains (pyLower question) kw = true)) ∧
    (∀ q₁ t₁ q₂ t₂, q₁ = q₂ → t₁ = t₂ →
      is_abstract_question q₁ t₁ = is_abstract_question q₂ t₂) := by
  constructor
  · intro question field_type
    unfold is_abstract_question
    constructor
    · intro h
      split at h
      · rename_i hc
        simp only [Bool.or_eq_true, beq_iff_eq, decide_eq_true_eq] at hc
        rcases hc with hc | hc
        · exact Or.inl hc
        · exact Or.inr (Or.inl hc)
      · rw [List.any_eq_true] at h
        obtain ⟨kw, hkw, hc⟩ := h
        exact Or.inr (Or.inr ⟨kw, hkw, hc⟩)
    · intro h
      split
      · rfl
      · rename_i hc
        simp only [Bool.or_eq_true, beq_iff_eq, decide_eq_true_eq, not_or] at hc
        rcases h with h | h | h
        · exact absurd h hc.1
        · exact absurd h hc.2
        · obtain ⟨kw, hkw, hc'⟩ := h
          exact List.any_eq_true.mpr ⟨kw, hkw, hc'⟩
  · intro q₁ t₁ q₂ t₂ hq ht
    rw [hq, ht]

/-- Witness for C2: the spec's two classifier examples, driven through the
theorem. -/
theorem claim_c2_is_abstract_question_iff_witness :
    is_abstract_question "Why do you want this job?" "text" = true ∧
    is_abstract_question "Email" "email" = false := by
  constructor
  · exact (claim_c2_is_abstract_question_iff.1 "Why do you want this job?" "text").mpr
      (Or.inr (Or.inr ⟨"why", by decide, by decide⟩))
  · have hpure := claim_c2_is_abstract_question_iff.2 "Email" "email" "Email" "email" rfl rfl
    by_contra hc
    rw [Bool.not_eq_false] at hc
    rcases (claim_c2_is_abstract_question_iff.1 "Email" "email").mp hc with h | h | h
    · exact absurd h (by decide)
    · exact absurd h (by decide)
    · obtain ⟨kw, hkw, hcon⟩ := h
      revert hcon
      fin_cases hkw <;> decide

/-- A resume with nothing in it, for concrete instantiations. -/
def emptyResume : ResumeData :=
  { personal_info := emptyPersonalInfo, education := [], work_experience := [],
    skills := [], projects := [], raw_text := "" }

/-- A resume with skills only, for concrete instantiations. -/
def skillsOnlyResume : ResumeData :=
  { personal_info := emptyPersonalInfo, education := [], work_experience := [],
    skills := ["sk1", "sk2"], projects := [], raw_text := "" }

/-- C10: when a keyword branch of `get_direct_answer` matches but the
resume fact is missing, the personal-info branches return `""` (not
absent) — e.g. an email question with no email key yields `some ""` —
whereas the education/experience branches with an empty list fall through
to later branches (so a question with "university" and "skill" and empty
education resolves to the comma-joined first 5 skills); and `none` is
returned only when no branch returns. -/
theorem claim_c10_absent_signaling :
    (∀ q r, strContains (pyLower q) "name" = false →
      strContains (pyLower q) "email" = true →
      r.personal_info.email = none →
      get_direct_answer q r = some "") ∧
    (∀ q r, strContains (pyLower q) "name" = false →
      strContains (pyLower q) "email" = false →
      strContains (pyLower q) "phone" = false →
      strContains (pyLower q) "linkedin" = false →
      strContains (pyLower q) "github" = false →
      strContains (pyLower q) "company" = false →
      strContains (pyLower q) "employer" = false →
      strContains (pyLower q) "position" = false →
      strContains (pyLower q) "title" = false →
      r.education = [] →
      strContains (pyLower q) "skill" = true →
      get_direct_answer q r = some (String.intercalate ", " (r.skills.take 5))) ∧
    (∀ q r, get_direct_answer q r = none →
      strContains (pyLower q) "name" = false ∧
      strContains (pyLower q) "email" = false ∧
      strContains (pyLower q) "phone" = false ∧
      strContains (pyLower q) "linkedin" = false ∧
      strContains (pyLower q) "github" = false ∧
      strContains (pyLower q) "skill" = false ∧
      ((strContains (pyLower q) "university" = true ∨
        strContains (pyLower q) "school" = true) → r.education = []) ∧
      (strContains (pyLower q) "degree" = true → r.education = []) ∧
      ((strContains (pyLower q) "company" = true ∨
        strContains (pyLower q) "employer" = true) → r.work_experience = []) ∧
      ((strContains (pyLower q) "position" = true ∨
        strContains (pyLower q) "title" = true) → r.work_experience = [])) := by
  refine ⟨?_, ?_, ?_⟩
  · intro q r hn he hemail
    have hfn := not_contains_full_name hn
    unfold get_direct_answer
    simp [hn, hfn, he, hemail]
  · intro q r hn he hp hl hg hc hemp hpos ht hedu hsk
    have hfn := not_contains_full_name hn
    unfold get_direct_answer
    simp [hn, hfn, he, hp, hl, hg, hc, hemp, hpos, ht, hedu, hsk]
  · intro q r h
    unfold get_direct_answer at h
    dsimp only at h
    split at h
    · simp at h
    rename_i h1
    split at h
    · simp at h
    rename_i h2
    split at h
    · simp at h
    rename_i h3
    split at h
    · simp at h
    rename_i h4
    split at h
    · simp at h
    rename_i h5
    split at h
    · simp at h
    rename_i h6
    split at h
    · simp at h
    rename_i h7
    split at h
    · simp at h
    rename_i h8
    split at h
    · simp at h
    rename_i h9
    split at h
    · simp at h
    rename_i h10
    simp only [Bool.or_eq_true, Bool.and_eq_true, Bool.not_eq_true,
      Bool.or_eq_false_iff, Bool.and_eq_false_iff, Bool.not_eq_false,
      List.isEmpty_iff, not_or, not_and] at h1 h2 h3 h4 h5 h6 h7 h8 h9 h10
    refine ⟨h1.1, h2, h3, h4, h5, h10, ?_, ?_, ?_, ?_⟩
    · intro hc
      simpa using h6 hc
    · intro hc
      simpa using h7 hc
    · intro hc
      simpa using h8 hc
    · intro hc
      simpa using h9 hc

/-- Witness for C10: "Email" on an empty resume yields `some ""`;
"University skill" with empty education falls through to the skills
branch; a keyword-free question establishes the `none` case. -/
theorem claim_c10_absent_signaling_witness :
    get_direct_answer "Email" emptyResume = some "" ∧
    get_direct_answer "University skill" skillsOnlyResume = some "sk1, sk2" ∧
    strContains (pyLower "favorite color") "skill" = false := by
  refine ⟨claim_c10_absent_signaling.1 "Email" emptyResume (by decide) (by decide) rfl,
    ?_, ?_⟩
  · have := claim_c10_absent_signaling.2.1 "University skill" skillsOnlyResume
      (by decide) (by decide) (by decide) (by decide) (by decide) (by decide)
      (by decide) (by decide) (by decide) rfl (by decide)
    simpa using this
  · exact (claim_c10_absent_signaling.2.2 "favorite color" emptyResume
      (by decide)).2.2.2.2.2.1

/-! ## C3: the name heuristic -/

/-- The per-line test of the name heuristic (applied to the stripped
line): length > 2, at most 4 tokens, no digit, no `"@"`, no
case-insensitive `"phone"`. -/
def goodNameLine (l : String) : Bool :=
  decide (l.length > 2) && decide (tokenCount l ≤ 4)
    && !(l.toList.any Char.isDigit) && !(strContains l "@")
    && !(strContains (pyLower l) "phone")

theorem nameLineLoop_eq_find (ls : List String) :
    nameLineLoop ls = (ls.map pyStrip).find? goodNameLine := by
  induction ls with
  | nil => rfl
  | cons line rest ih =>
    rw [List.map_cons]
    cases hg : goodNameLine (pyStrip line) with
    | true =>
      rw [List.find?_cons_of_pos _ hg]
      unfold goodNameLine at hg
      simp only [Bool.and_eq_true, decide_eq_true_eq, Bool.not_eq_true'] at hg
      obtain ⟨⟨⟨⟨ha, hb⟩, hc⟩, hd⟩, he⟩ := hg
      unfold nameLineLoop
      rw [if_pos ⟨ha, hb, hc⟩, if_pos ⟨hd, he⟩]
    | false =>
      rw [List.find?_cons_of_neg _ (by rw [hg]; exact Bool.false_ne_true)]
      unfold nameLineLoop
      by_cases h1 : (pyStrip line).length > 2 ∧ tokenCount (pyStrip line) ≤ 4 ∧
          (pyStrip line).toList.any Char.isDigit = false
      · rw [if_pos h1]
        by_cases h2 : strContains (pyStrip line) "@" = false ∧
            strContains (pyLower (pyStrip line)) "phone" = false
        · exfalso
          have : goodNameLine (pyStrip line) = true := by
            unfold goodNameLine
            rw [h1.2.2, h2.1, h2.2]
            simp [h1.1, h1.2.1]
          rw [this] at hg
          exact Bool.noConfusion hg
        · rw [if_neg h2]
          exact ih
      · rw [if_neg h1]
        exact ih

/-- The name search as the claim words it: the candidate pool is the
first 5 non-empty trimmed lines of the raw text. -/
def claimNamePool (text : String) : List String :=
  (((pySplitLines text).map pyStrip).filter (fun l => !l.isEmpty)).take 5

/-- The claim-reading of name extraction, to be compared with the
source's behavior. -/
def claimExtractName (text : String) : Option String :=
  (claimNamePool text).find? goodNameLine

/-- C3 counterexample: on a text whose first five raw lines are blank,
the claim's reading (first 5 *non-empty* trimmed lines) finds
"John Smith", but the code (which takes the first 5 raw lines before
filtering) omits the name key. -/
theorem claim_c3_counterexample :
    claimExtractName "\n\n\n\n\nJohn Smith" = some "John Smith" ∧
    (_extract_personal_info "\n\n\n\n\nJohn Smith").name = none := by
  constructor <;> decide

/-- C3 (amended): name extraction searches within the first 5 raw lines
of the text (blank lines count toward the five), strips each, and sets
`personal_info.name` to the first such stripped line with length > 2, at
most 4 whitespace-separated tokens, no digit, no `"@"`, and no
case-insensitive `"phone"`; if no such line exists among those 5 the name
key is omitted. -/
theorem claim_c3_amended (text : String) :
    (_extract_personal_info text).name =
      (((pySplitLines text).take 5).map pyStrip).find? goodNameLine :=
  nameLineLoop_eq_find _

/-! ## C4: section capture boundaries -/

theorem captureSection_stop (triggers stops : List String) (line : String)
    (rest : List String)
    (ht : lineHasKeyword (pyStrip line) triggers = false)
    (hs : lineHasKeyword (pyStrip line) stops = true) :
    captureSection triggers stops (line :: rest) true = [] := by
  simp [captureSection, ht, hs]

theorem captureSection_capture (triggers stops : List String) (line : String)
    (rest : List String)
    (ht : lineHasKeyword (pyStrip line) triggers = false)
    (hs : lineHasKeyword (pyStrip line) stops = false)
    (hne : pyStrip line ≠ "") :
    captureSection triggers stops (line :: rest) true =
      pyStrip line :: captureSection triggers stops rest true := by
  simp [captureSection, ht, hs, hne]

theorem captureSection_blank (triggers stops : List String) (line : String)
    (rest : List String)
    (hb : pyStrip line = "")
    (ht : lineHasKeyword "" triggers = false)
    (hs : lineHasKeyword "" stops = false) :
    captureSection triggers stops (line :: rest) true =
      captureSection triggers stops rest true := by
  simp [captureSection, hb, ht, hs]

theorem captureSection_run_to_end (triggers stops : List String)
    (lines : List String)
    (h : ∀ l ∈ lines, lineHasKeyword (pyStrip l) triggers = false ∧
      lineHasKeyword (pyStrip l) stops = false) :
    captureSection triggers stops lines true =
      ((lines.map pyStrip).filter (fun l => !l.isEmpty)) := by
  induction lines with
  | nil => rfl
  | cons line rest ih =>
    obtain ⟨ht, hs⟩ := h line (List.mem_cons_self line rest)
    have ih' := ih (fun l hl => h l (List.mem_cons_of_mem _ hl))
    by_cases hne : pyStrip line = ""
    · rw [hne] at ht hs
      have hb : (!("" : String).isEmpty) = false := by
        simp [String.isEmpty_iff]
      simp [captureSection, ht, hs, hne, ih', List.filter_cons, hb]
    · have hb0 : (pyStrip line).isEmpty = false :=
        Bool.eq_false_iff.mpr (fun hx => hne ((String.isEmpty_iff _).mp hx))
      have hb : (!(pyStrip line).isEmpty) = true := by
        rw [hb0]
        rfl
      simp [captureSection, ht, hs, hne, ih', List.filter_cons, hb]

/-- The claim's stop set for the education section: the keyword sets of
every other section (experience, skills, contact, and the project trigger
"project"). -/
def claimEducationStops : List String :=
  experience_keywords ++ skills_keywords ++ contact_keywords ++ ["project"]

/-- Education section capture as the claim words it. -/
def claimEducationLines (text : String) : List String :=
  captureSection education_keywords claimEducationStops (pySplitLines text) false

/-- C4 counterexample: inside the education section, a line holding the
contact keyword "contact" does not terminate the section — the code
captures it (and keeps scanning) — whereas the claim's stop set
(experience, skills, contact, project) would end the section there. -/
theorem claim_c4_counterexample :
    education_lines "Education\ncontact\nabc" = ["contact", "abc"] ∧
    claimEducationLines "Education\ncontact\nabc" = [] := by
  constructor <;> decide

/-- C4 (amended): with the capture flag on, a line containing an
experience or skills keyword (and no trigger keyword) terminates the
education section without being captured — contact keywords and "project"
are not in that stop set, so a line containing only those is captured;
for the projects section the stop set is education ∪ experience ∪ skills
keywords; blank lines are skipped but never terminate; with no trigger or
stop keyword occurring, capture runs to the end of the text. -/
theorem claim_c4_amended :
    (∀ line rest, lineHasKeyword (pyStrip line) education_keywords = false →
      lineHasKeyword (pyStrip line) (experience_keywords ++ skills_keywords) = true →
      captureSection education_keywords (experience_keywords ++ skills_keywords)
        (line :: rest) true = []) ∧
    (∀ line rest, lineHasKeyword (pyStrip line) education_keywords = false →
      lineHasKeyword (pyStrip line) (experience_keywords ++ skills_keywords) = false →
      pyStrip line ≠ "" →
      captureSection education_keywords (experience_keywords ++ skills_keywords)
        (line :: rest) true =
        pyStrip line :: captureSection education_keywords
          (experience_keywords ++ skills_keywords) rest true) ∧
    (∀ line rest, pyStrip line = "" →
      captureSection education_keywords (experience_keywords ++ skills_keywords)
        (line :: rest) true =
        captureSection education_keywords (experience_keywords ++ skills_keywords)
          rest true) ∧
    (∀ lines, (∀ l ∈ lines,
        lineHasKeyword (pyStrip l) education_keywords = false ∧
        lineHasKeyword (pyStrip l) (experience_keywords ++ skills_keywords) = false) →
      captureSection education_keywords (experience_keywords ++ skills_keywords)
        lines true = ((lines.map pyStrip).filter (fun l => !l.isEmpty))) ∧
    (∀ line rest, lineHasKeyword (pyStrip line) ["project"] = false →
      lineHasKeyword (pyStrip line)
        (education_keywords ++ experience_keywords ++ skills_keywords) = true →
      captureSection ["project"]
        (education_keywords ++ experience_keywords ++ skills_keywords)
        (line :: rest) true = []) ∧
    (∀ line rest, lineHasKeyword (pyStrip line) ["project"] = false →
      lineHasKeyword (pyStrip line)
        (education_keywords ++ experience_keywords ++ skills_keywords) = false →
      pyStrip line ≠ "" →
      captureSection ["project"]
        (education_keywords ++ experience_keywords ++ skills_keywords)
        (line :: rest) true =
        pyStrip line :: captureSection ["project"]
          (education_keywords ++ experience_keywords ++ skills_keywords) rest true) ∧
    (∀ line rest, pyStrip line = "" →
      captureSection ["project"]
        (education_keywords ++ experience_keywords ++ skills_keywords)
        (line :: rest) true =
        captureSection ["project"]
          (education_keywords ++ experience_keywords ++ skills_keywords) rest true) ∧
    (∀ lines, (∀ l ∈ lines,
        lineHasKeyword (pyStrip l) ["project"] = false ∧
        lineHasKeyword (pyStrip l)
          (education_keywords ++ experience_keywords ++ skills_keywords) = false) →
      captureSection ["project"]
        (education_keywords ++ experience_keywords ++ skills_keywords)
        lines true = ((lines.map pyStrip).filter (fun l => !l.isEmpty))) := by
  refine ⟨?_, ?_, ?_, ?_, ?_, ?_, ?_, ?_⟩
  · intro line rest ht hs
    exact captureSection_stop _ _ _ _ ht hs
  · intro line rest ht hs hne
    exact captureSection_capture _ _ _ _ ht hs hne
  · intro line rest hb
    exact captureSection_blank _ _ _ _ hb (by decide) (by decide)
  · intro lines h
    exact captureSection_run_to_end _ _ _ h
  · intro line rest ht hs
    exact captureSection_stop _ _ _ _ ht hs
  · intro line rest ht hs hne
    exact captureSection_capture _ _ _ _ ht hs hne
  · intro line rest hb
    exact captureSection_blank _ _ _ _ hb (by decide) (by decide)
  · intro lines h
    exact captureSection_run_to_end _ _ _ h

/-- Witness for C4 (amended), exercising every conjunct at concrete
inputs: a "Work" line stops education capture, a "contact" line is
captured, blank lines are skipped, keyword-free lines run to the end, and
the projects analogues. -/
theorem claim_c4_amended_witness :
    captureSection education_keywords (experience_keywords ++ skills_keywords)
      ["Work", "x"] true = [] ∧
    captureSection education_keywords (experience_keywords ++ skills_keywords)
      ["contact info"] true = ["contact info"] ∧
    captureSection education_keywords (experience_keywords ++ skills_keywords)
      ["  ", "Work"] true =
      captureSection education_keywords (experience_keywords ++ skills_keywords)
        ["Work"] true ∧
    captureSection education_keywords (experience_keywords ++ skills_keywords)
      ["Alma Mater", "GPA high"] true = ["Alma Mater", "GPA high"] ∧
    captureSection ["project"]
      (education_keywords ++ experience_keywords ++ skills_keywords)
      ["Skills", "x"] true = [] ∧
    captureSection ["project"]
      (education_keywords ++ experience_keywords ++ skills_keywords)
      ["contact info"] true = ["contact info"] ∧
    captureSection ["project"]
      (education_keywords ++ experience_keywords ++ skills_keywords)
      ["  ", "x"] true =
      captureSection ["project"]
        (education_keywords ++ experience_keywords ++ skills_keywords) ["x"] true ∧
    captureSection ["project"]
      (education_keywords ++ experience_keywords ++ skills_keywords)
      ["App one", "built it"] true = ["App one", "built it"] := by
  refine ⟨claim_c4_amended.1 "Work" ["x"] (by decide) (by decide),
    claim_c4_amended.2.1 "contact info" [] (by decide) (by decide) (by decide),
    claim_c4_amended.2.2.1 "  " ["Work"] (by decide),
    ?_,
    claim_c4_amended.2.2.2.2.1 "Skills" ["x"] (by decide) (by decide),
    claim_c4_amended.2.2.2.2.2.1 "contact info" [] (by decide) (by decide) (by decide),
    claim_c4_amended.2.2.2.2.2.2.1 "  " ["x"] (by decide),
    ?_⟩
  · have := claim_c4_amended.2.2.2.1 ["Alma Mater", "GPA high"] (by decide)
    simpa using this
  · have := claim_c4_amended.2.2.2.2.2.2.2 ["App one", "built it"] (by decide)
    simpa using this

/-! ## C5: single-entry invariant for education / experience -/

/-- C5: `_extract_education` and `_extract_work_experience` always return
at most one entry; the single accumulating entry is appended once, after
the loop, only if non-empty, so an empty section yields the empty list,
and any returned entry is exactly the fold of the per-line overwrites. -/
theorem claim_c5_single_entry (text : String) :
    (_extract_education text).length ≤ 1 ∧
    (_extract_work_experience text).length ≤ 1 ∧
    (education_lines text = [] → _extract_education text = []) ∧
    (experience_lines text = [] → _extract_work_experience text = []) ∧
    (∀ e ∈ _extract_education text,
      e = (education_lines text).foldl updateEducation emptyEducationEntry ∧
      e ≠ emptyEducationEntry) ∧
    (∀ e ∈ _extract_work_experience text,
      e = (experience_lines text).foldl updateExperience emptyExperienceEntry ∧
      e ≠ emptyExperienceEntry) := by
  refine ⟨?_, ?_, ?_, ?_, ?_, ?_⟩
  · unfold _extract_education
    dsimp only
    split <;> simp
  · unfold _extract_work_experience
    dsimp only
    split <;> simp
  · intro h
    unfold _extract_education
    rw [h]
    rfl
  · intro h
    unfold _extract_work_experience
    rw [h]
    rfl
  · intro e he
    unfold _extract_education at he
    dsimp only at he
    split at he
    · simp at he
    · rename_i hne
      rw [List.mem_singleton] at he
      exact ⟨he, he ▸ hne⟩
  · intro e he
    unfold _extract_work_experience at he
    dsimp only at he
    split at he
    · simp at he
    · rename_i hne
      rw [List.mem_singleton] at he
      exact ⟨he, he ▸ hne⟩

/-- Witness for C5: a concrete education section produces exactly one
entry; empty texts produce empty lists. -/
theorem claim_c5_single_entry_witness :
    (_extract_education "Education\nBS line\nWork").length ≤ 1 ∧
    _extract_education "" = [] ∧
    _extract_work_experience "" = [] ∧
    ({ degree := some "BS line", institution := none, year := none } :
      EducationEntry) ≠ emptyEducationEntry :=
  ⟨(claim_c5_single_entry "Education\nBS line\nWork").1,
   (claim_c5_single_entry "").2.2.1 rfl,
   (claim_c5_single_entry "").2.2.2.1 rfl,
   ((claim_c5_single_entry "Education\nBS line\nWork").2.2.2.2.1 _ (by decide)).2⟩

/-! ## C6: projects pair up name/description -/

theorem parseProjects_mem (ls : List String) :
    ∀ cur, ∀ p ∈ parseProjects ls cur,
      projTruthy p.name = true ∧ ∃ d, p.description = some d ∧ d ≠ "" := by
  induction ls with
  | nil =>
    intro cur p hp
    simp [parseProjects] at hp
  | cons line rest ih =>
    intro cur p hp
    unfold parseProjects at hp
    split at hp
    · exact ih _ p hp
    · rename_i h1
      split at hp
      · rename_i h2
        rcases List.mem_cons.mp hp with h | h
        · subst h
          simp only [Bool.and_eq_true, Bool.not_eq_true'] at h1
          have hle : line.isEmpty = false := by simpa using h2
          have hname : projTruthy cur.name = true := by
            rcases Bool.eq_false_or_eq_true (projTruthy cur.name) with ht | hf
            · exact ht
            · exact absurd ⟨hle, hf⟩ h1
          refine ⟨hname, line, rfl, ?_⟩
          intro hl
          rw [hl] at hle
          exact absurd hle (by decide)
        · exact ih _ p h
      · exact ih _ p hp

theorem captureSection_mem_ne (triggers stops : List String) :
    ∀ (ls : List String) (flag : Bool) (l : String),
      l ∈ captureSection triggers stops ls flag → l ≠ "" := by
  intro ls
  induction ls with
  | nil =>
    intro flag l hl
    simp [captureSection] at hl
  | cons line rest ih =>
    intro flag l hl
    unfold captureSection at hl
    dsimp only at hl
    split at hl
    · exact ih true l hl
    · split at hl
      · split at hl
        · simp at hl
        · split at hl
          · rename_i hne
            rcases List.mem_cons.mp hl with h | h
            · subst h
              exact hne
            · exact ih true l h
          · exact ih true l hl
      · exact ih false l hl

theorem parseProjects_length (ls : List String) (h : ∀ l ∈ ls, l ≠ "") :
    ∀ cur, (parseProjects ls cur).length =
      (if projTruthy cur.name = true then (ls.length + 1) / 2
       else ls.length / 2) := by
  induction ls with
  | nil =>
    intro cur
    simp [parseProjects]
  | cons line rest ih =>
    intro cur
    have hline : line ≠ "" := h line (List.mem_cons_self line rest)
    have hbe : (!line.isEmpty) = true := by
      rw [Bool.eq_false_iff.mpr (fun hx => hline ((String.isEmpty_iff _).mp hx))]
      rfl
    have hrest := ih (fun l hl => h l (List.mem_cons_of_mem _ hl))
    cases hn : projTruthy cur.name with
    | false =>
      have hc1 : (!line.isEmpty && !projTruthy cur.name) = true := by
        rw [hbe, hn]
        rfl
      unfold parseProjects
      rw [if_pos hc1, hrest]
      have hn2 : projTruthy ({ cur with name := some line } : ProjectEntry).name = true :=
        hbe
      rw [if_pos hn2]
      simp
    | true =>
      have hc1 : (!line.isEmpty && !projTruthy cur.name) = false := by
        rw [hbe, hn]
        rfl
      unfold parseProjects
      rw [if_neg (by rw [hc1]; exact Bool.false_ne_true), if_pos hbe]
      rw [List.length_cons, hrest]
      rw [if_neg (by decide)]
      simp
      omega

/-- C6: every published project entry has both a (truthy) name and a
(non-empty) description; entries pair consecutive captured lines, so the
count is half the number of captured project lines and a trailing
name-only project is never published. -/
theorem claim_c6_projects_pairs :
    (∀ text, ∀ p ∈ _extract_projects text,
      projTruthy p.name = true ∧ ∃ d, p.description = some d ∧ d ≠ "") ∧
    (∀ text, (_extract_projects text).length = (project_lines text).length / 2) ∧
    (∀ l cur, l ≠ "" → projTruthy cur.name = false → parseProjects [l] cur = []) := by
  refine ⟨?_, ?_, ?_⟩
  · intro text p hp
    exact parseProjects_mem _ _ p hp
  · intro text
    have h := parseProjects_length (project_lines text)
      (fun l hl => captureSection_mem_ne _ _ _ _ l hl)
      emptyProjectEntry
    unfold _extract_projects
    rw [h, if_neg (by decide)]
  · intro l cur hl hcur
    have hbe : (!l.isEmpty) = true := by
      rw [Bool.eq_false_iff.mpr (fun hx => hl ((String.isEmpty_iff _).mp hx))]
      rfl
    unfold parseProjects
    rw [if_pos (by rw [hbe, hcur]; rfl)]
    rfl

/-- Witness for C6: a projects section with two complete pairs and a
trailing name-only line publishes exactly the two pairs; the lonely
trailing name is dropped. -/
theorem claim_c6_projects_pairs_witness :
    (projTruthy (some "A1") = true ∧
      ∃ d, (some "D1" : Option String) = some d ∧ d ≠ "") ∧
    (_extract_projects "Projects\nA1\nD1\nA2\nD2\nLonely").length =
      (project_lines "Projects\nA1\nD1\nA2\nD2\nLonely").length / 2 ∧
    parseProjects ["Lonely"] emptyProjectEntry = [] := by
  refine ⟨?_, claim_c6_projects_pairs.2.1 "Projects\nA1\nD1\nA2\nD2\nLonely",
    claim_c6_projects_pairs.2.2 "Lonely" emptyProjectEntry (by decide) rfl⟩
  · have := claim_c6_projects_pairs.1 "Projects\nA1\nD1"
      ⟨some "A1", some "D1"⟩ (by decide)
    simpa using this

/-! ## C7: phone pattern priority -/

/-- C7: phone extraction tries `ddd-ddd-dddd`, then `(ddd) ddd-dddd`,
then 10 consecutive digits, each searched over the whole text, stopping
at the first pattern with a match anywhere; so pattern priority beats
textual position (a later-positioned match of an earlier pattern wins
over an earlier-positioned match of a later one), and if no pattern
matches the phone key is omitted. -/
theorem claim_c7_phone_priority (text : String) :
    ((reSearchStr phoneRE1 text).isSome = true →
      extractPhone text = reSearchStr phoneRE1 text) ∧
    (reSearchStr phoneRE1 text = none → (reSearchStr phoneRE2 text).isSome = true →
      extractPhone text = reSearchStr phoneRE2 text) ∧
    (reSearchStr phoneRE1 text = none → reSearchStr phoneRE2 text = none →
      extractPhone text = reSearchStr phoneRE3 text) ∧
    (∀ i₁ m₁ i₃ m₃, reSearch phoneRE1 text = some (i₁, m₁) →
      reSearch phoneRE3 text = some (i₃, m₃) → i₃ < i₁ →
      extractPhone text = some m₁) ∧
    (reSearchStr phoneRE1 text = none → reSearchStr phoneRE2 text = none →
      reSearchStr phoneRE3 text = none →
      (_extract_personal_info text).phone = none) := by
  refine ⟨?_, ?_, ?_, ?_, ?_⟩
  · intro h
    obtain ⟨v, hv⟩ := Option.isSome_iff_exists.mp h
    simp [extractPhone, phone_patterns, List.findSome?_cons, hv]
  · intro h1 h2
    obtain ⟨v, hv⟩ := Option.isSome_iff_exists.mp h2
    simp [extractPhone, phone_patterns, List.findSome?_cons, h1, hv]
  · intro h1 h2
    cases hc : reSearchStr phoneRE3 text with
    | none => simp [extractPhone, phone_patterns, List.findSome?_cons, h1, h2, hc]
    | some v => simp [extractPhone, phone_patterns, List.findSome?_cons, h1, h2, hc]
  · intro i₁ m₁ i₃ m₃ h1 _ _
    have hv : reSearchStr phoneRE1 text = some m₁ := by
      unfold reSearchStr
      rw [h1]
      rfl
    simp [extractPhone, phone_patterns, List.findSome?_cons, hv]
  · intro h1 h2 h3
    show extractPhone text = none
    simp [extractPhone, phone_patterns, List.findSome?_cons, h1, h2, h3]

/-- Witness for C7: the 10-digit pattern matches at position 0 but the
dashed pattern's later match at position 15 is chosen; a text with no
phone-like substring omits the key. -/
theorem claim_c7_phone_priority_witness :
    reSearch phoneRE1 "1234567890 and 555-123-4567" = some (15, "555-123-4567") ∧
    reSearch phoneRE3 "1234567890 and 555-123-4567" = some (0, "1234567890") ∧
    extractPhone "1234567890 and 555-123-4567" = some "555-123-4567" ∧
    (_extract_personal_info "no numbers here").phone = none := by
  have hh1 : reSearch phoneRE1 "1234567890 and 555-123-4567" =
      some (15, "555-123-4567") := by decide
  have hh3 : reSearch phoneRE3 "1234567890 and 555-123-4567" =
      some (0, "1234567890") := by decide
  refine ⟨hh1, hh3,
    (claim_c7_phone_priority "1234567890 and 555-123-4567").2.2.2.1
      15 "555-123-4567" 0 "1234567890" hh1 hh3 (by decide),
    (claim_c7_phone_priority "no numbers here").2.2.2.2
      (by decide) (by decide) (by decide)⟩

/-! ## C8: parse_resume error behavior -/

/-- C8: `parse_resume` fails with the unsupported-format error whenever
the lowercased extension is not `.pdf` / `.docx` / `.doc`; for supported
extensions it returns the extractor's error unchanged or a full
`ResumeDocument` whose six components are exactly the six extractors
applied to the extracted text — never a partial result. -/
theorem claim_c8_parse_resume (file_path : String)
    (pdf_text docx_text : Except String String) :
    (pyLower (splitextExt file_path) ≠ ".pdf" →
     pyLower (splitextExt file_path) ≠ ".docx" →
     pyLower (splitextExt file_path) ≠ ".doc" →
      parse_resume file_path pdf_text docx_text =
        Except.error ("Unsupported file format: " ++ pyLower (splitextExt file_path))) ∧
    (∀ d, parse_resume file_path pdf_text docx_text = Except.ok d →
      d.personal_info = _extract_personal_info d.raw_text ∧
      d.education = _extract_education d.raw_text ∧
      d.work_experience = _extract_work_experience d.raw_text ∧
      d.skills = _extract_skills d.raw_text ∧
      d.projects = _extract_projects d.raw_text) ∧
    (pyLower (splitextExt file_path) = ".pdf" →
      parse_resume file_path pdf_text docx_text =
        pdf_text.map _parse_text_to_structured_data) ∧
    ((pyLower (splitextExt file_path) = ".docx" ∨
      pyLower (splitextExt file_path) = ".doc") →
      parse_resume file_path pdf_text docx_text =
        docx_text.map _parse_text_to_structured_data) := by
  refine ⟨?_, ?_, ?_, ?_⟩
  · intro h1 h2 h3
    unfold parse_resume
    rw [if_neg h1, if_neg (by rintro (h | h) <;> [exact h2 h; exact h3 h])]
  · intro d hd
    unfold parse_resume at hd
    dsimp only at hd
    split at hd
    · cases pdf_text with
      | error e => exact absurd hd (by simp [Except.map])
      | ok t =>
        simp only [Except.map, Except.ok.injEq] at hd
        subst hd
        exact ⟨rfl, rfl, rfl, rfl, rfl⟩
    · split at hd
      · cases docx_text with
        | error e => exact absurd hd (by simp [Except.map])
        | ok t =>
          simp only [Except.map, Except.ok.injEq] at hd
          subst hd
          exact ⟨rfl, rfl, rfl, rfl, rfl⟩
      · exact absurd hd (by simp)
  · intro h
    unfold parse_resume
    rw [if_pos h]
  · intro h
    unfold parse_resume
    have hne : pyLower (splitextExt file_path) ≠ ".pdf" := by
      rcases h with h | h <;> rw [h] <;> decide
    rw [if_neg hne, if_pos h]

/-- Witness for C8: a `.txt` path aborts with the unsupported-format
error; a `.PDF` path parses the extracted text in full; a `.docx` path
propagates the extractor's failure unchanged. -/
theorem claim_c8_parse_resume_witness :
    parse_resume "dir/r.txt" (Except.ok "a") (Except.ok "b") =
      Except.error "Unsupported file format: .txt" ∧
    parse_resume "dir/r.PDF" (Except.ok "John Smith") (Except.error "x") =
      Except.ok (_parse_text_to_structured_data "John Smith") ∧
    parse_resume "r.docx" (Except.ok "a") (Except.error "boom") =
      Except.error "boom" ∧
    (_parse_text_to_structured_data "John Smith").personal_info =
      _extract_personal_info "John Smith" := by
  refine ⟨?_, ?_, ?_, ?_⟩
  · have := (claim_c8_parse_resume "dir/r.txt" (Except.ok "a") (Except.ok "b")).1
      (by decide) (by decide) (by decide)
    simpa using this
  · have := (claim_c8_parse_resume "dir/r.PDF" (Except.ok "John Smith")
      (Except.error "x")).2.2.1 (by decide)
    simpa using this
  · have := (claim_c8_parse_resume "r.docx" (Except.ok "a")
      (Except.error "boom")).2.2.2 (Or.inl (by decide))
    simpa using this
  · exact ((claim_c8_parse_resume "x.pdf" (Except.ok "John Smith")
      (Except.error "e")).2.1 _ rfl).1

/-! ## C9: round trip through the persisted JSON format

`save_parsed_data` dumps the resume dict as JSON; the repository has no
reader for that artifact, so the decoding side below is modelled from the
spec's description of the persisted document. The JSON format is
embedded at document-value level (strings, arrays, objects), which is
what `json.dump`/`json.load` preserve exactly for this data. -/

/-- JSON document values as far as the persisted parse artifact uses
them: strings, arrays and objects. -/
inductive Json where
  | str (s : String)
  | arr (elems : List Json)
  | obj (fields : List (String × Json))

/-- An optional string entry of a Python dict: present keys only. -/
def optField (k : String) (v : Option String) : List (String × Json) :=
  match v with
  | some s => [(k, Json.str s)]
  | none => []

/-- The `personal_info` object (keys in the insertion order of
`_extract_personal_info`). -/
def personalInfoToJson (pi : PersonalInfo) : Json :=
  .obj (optField "name" pi.name ++ optField "email" pi.email ++
    optField "phone" pi.phone ++ optField "linkedin" pi.linkedin ++
    optField "github" pi.github)

def educationToJson (e : EducationEntry) : Json :=
  .obj (optField "degree" e.degree ++ optField "institution" e.institution ++
    optField "year" e.year)

def experienceToJson (e : ExperienceEntry) : Json :=
  .obj (optField "position" e.position ++ optField "company" e.company ++
    optField "duration" e.duration)

def projectToJson (p : ProjectEntry) : Json :=
  .obj (optField "name" p.name ++ optField "description" p.description)

/-- `save_parsed_data`: the persisted JSON document, with the six
top-level keys in the construction order of
`_parse_text_to_structured_data`. -/
def resumeToJson (d : ResumeData) : Json :=
  .obj [("personal_info", personalInfoToJson d.personal_info),
        ("education", .arr (d.education.map educationToJson)),
        ("work_experience", .arr (d.work_experience.map experienceToJson)),
        ("skills", .arr (d.skills.map .str)),
        ("projects", .arr (d.projects.map projectToJson)),
        ("raw_text", .str d.raw_text)]

/-- Modelled from the spec: key lookup in a decoded JSON object (the
repository persists the artifact but has no reader; the spec's round-trip
property needs one). -/
def jLookup (fields : List (String × Json)) (k : String) : Option Json :=
  (fields.find? (fun p => p.1 == k)).map (fun p => p.2)

/-- Modelled from the spec: a JSON string value. -/
def jStr? : Json → Option String
  | .str s => some s
  | _ => none

/-- Modelled from the spec: a JSON array value. -/
def jArr? : Json → Option (List Json)
  | .arr l => some l
  | _ => none

/-- Modelled from the spec: an optional string field of an object. -/
def jLookupStr (fields : List (String × Json)) (k : String) : Option String :=
  (jLookup fields k).bind jStr?

/-- Modelled from the spec: decode every array element or fail. -/
def decodeList {α : Type} (dec : Json → Option α) : List Json → Option (List α)
  | [] => some []
  | j :: js =>
    match dec j, decodeList dec js with
    | some a, some as => some (a :: as)
    | _, _ => none

/-- Modelled from the spec: reader of the `personal_info` object. -/
def personalInfoFromJson : Json → Option PersonalInfo
  | .obj fs => some ⟨jLookupStr fs "name", jLookupStr fs "email",
      jLookupStr fs "phone", jLookupStr fs "linkedin", jLookupStr fs "github"⟩
  | _ => none

/-- Modelled from the spec: reader of an education entry. -/
def educationFromJson : Json → Option EducationEntry
  | .obj fs => some ⟨jLookupStr fs "degree", jLookupStr fs "institution",
      jLookupStr fs "year"⟩
  | _ => none

/-- Modelled from the spec: reader of a work-experience entry. -/
def experienceFromJson : Json → Option ExperienceEntry
  | .obj fs => some ⟨jLookupStr fs "position", jLookupStr fs "company",
      jLookupStr fs "duration"⟩
  | _ => none

/-- Modelled from the spec: reader of a project entry. -/
def projectFromJson : Json → Option ProjectEntry
  | .obj fs => some ⟨jLookupStr fs "name", jLookupStr fs "description"⟩
  | _ => none

/-- Modelled from the spec: reader of the whole persisted document (the
six top-level keys `personal_info`, `education`, `work_experience`,
`skills`, `projects`, `raw_text`). -/
def resumeFromJson : Json → Option ResumeData
  | .obj fs =>
    match jLookup fs "personal_info", jLookup fs "education",
      jLookup fs "work_experience", jLookup fs "skills",
      jLookup fs "projects", jLookup fs "raw_text" with
    | some jpi, some jedu, some jexp, some jsk, some jpr, some jraw =>
      match personalInfoFromJson jpi, jArr? jedu, jArr? jexp, jArr? jsk,
        jArr? jpr, jStr? jraw with
      | some pi, some ledu, some lexp, some lsk, some lpr, some raw =>
        match decodeList educationFromJson ledu,
          decodeList experienceFromJson lexp, decodeList jStr? lsk,
          decodeList projectFromJson lpr with
        | some edu, some ex, some sk, some pr =>
          some ⟨pi, edu, ex, sk, pr, raw⟩
        | _, _, _, _ => none
      | _, _, _, _, _, _ => none
    | _, _, _, _, _, _ => none
  | _ => none

theorem personalInfo_roundtrip (pi : PersonalInfo) :
    personalInfoFromJson (personalInfoToJson pi) = some pi := by
  obtain ⟨n, e, p, l, g⟩ := pi
  cases n <;> cases e <;> cases p <;> cases l <;> cases g <;> rfl

theorem education_roundtrip (e : EducationEntry) :
    educationFromJson (educationToJson e) = some e := by
  obtain ⟨d, i, y⟩ := e
  cases d <;> cases i <;> cases y <;> rfl

theorem experience_roundtrip (e : ExperienceEntry) :
    experienceFromJson (experienceToJson e) = some e := by
  obtain ⟨p, c, du⟩ := e
  cases p <;> cases c <;> cases du <;> rfl

theorem project_roundtrip (p : ProjectEntry) :
    projectFromJson (projectToJson p) = some p := by
  obtain ⟨n, d⟩ := p
  cases n <;> cases d <;> rfl

theorem decodeList_map {α : Type} (enc : α → Json) (dec : Json → Option α)
    (h : ∀ x, dec (enc x) = some x) (l : List α) :
    decodeList dec (l.map enc) = some l := by
  induction l with
  | nil => rfl
  | cons x xs ih => simp [decodeList, h x, ih]

/-- C9: encoding a `ResumeDocument` into the persisted JSON format and
reading that document back reproduces the same field values. -/
theorem claim_c9_roundtrip (d : ResumeData) :
    resumeFromJson (resumeToJson d) = some d := by
  obtain ⟨pi, edu, ex, sk, pr, raw⟩ := d
  show resumeFromJson (Json.obj _) = _
  unfold resumeFromJson
  dsimp only
  rw [show jLookup [("personal_info", personalInfoToJson pi),
        ("education", .arr (edu.map educationToJson)),
        ("work_experience", .arr (ex.map experienceToJson)),
        ("skills", .arr (sk.map .str)),
        ("projects", .arr (pr.map projectToJson)),
        ("raw_text", .str raw)] "personal_info" =
      some (personalInfoToJson pi) from rfl]
  rw [show jLookup [("personal_info", personalInfoToJson pi),
        ("education", .arr (edu.map educationToJson)),
        ("work_experience", .arr (ex.map experienceToJson)),
        ("skills", .arr (sk.map .str)),
        ("projects", .arr (pr.map projectToJson)),
        ("raw_text", .str raw)] "education" =
      some (.arr (edu.map educationToJson)) from rfl]
  rw [show jLookup [("personal_info", personalInfoToJson pi),
        ("education", .arr (edu.map educationToJson)),
        ("work_experience", .arr (ex.map experienceToJson)),
        ("skills", .arr (sk.map .str)),
        ("projects", .arr (pr.map projectToJson)),
        ("raw_text", .str raw)] "work_experience" =
      some (.arr (ex.map experienceToJson)) from rfl]
  rw [show jLookup [("personal_info", personalInfoToJson pi),
        ("education", .arr (edu.map educationToJson)),
        ("work_experience", .arr (ex.map experienceToJson)),
        ("skills", .arr (sk.map .str)),
        ("projects", .arr (pr.map projectToJson)),
        ("raw_text", .str raw)] "skills" =
      some (.arr (sk.map .str)) from rfl]
  rw [show jLookup [("personal_info", personalInfoToJson pi),
        ("education", .arr (edu.map educationToJson)),
        ("work_experience", .arr (ex.map experienceToJson)),
        ("skills", .arr (sk.map .str)),
        ("projects", .arr (pr.map projectToJson)),
        ("raw_text", .str raw)] "raw_text" =
      some (.str raw) from rfl]
  rw [show jLookup [("personal_info", personalInfoToJson pi),
        ("education", .arr (edu.map educationToJson)),
        ("work_experience", .arr (ex.map experienceToJson)),
        ("skills", .arr (sk.map .str)),
        ("projects", .arr (pr.map projectToJson)),
        ("raw_text", .str raw)] "projects" =
      some (.arr (pr.map projectToJson)) from rfl]
  dsimp only
  rw [personalInfo_roundtrip]
  simp only [jArr?, jStr?]
  rw [decodeList_map educationToJson educationFromJson education_roundtrip,
    decodeList_map experienceToJson experienceFromJson experience_roundtrip,
    decodeList_map Json.str jStr? (fun _ => rfl),
    decodeList_map projectToJson projectFromJson project_roundtrip]

end JobForm
